import Mathlib

/-!
Verification of the study-plan generator in `src/study_planner.py`
(class `StudyPlanner`).

The Python module is embedded shallowly:

* hours are rationals (`ℚ`); Python's `round(x, 1)` is modelled by
  `round1` and one-argument `round(x)` by `pyround`, both using Python's
  round-half-to-even convention;
* `dict` results become structures; the insertion-ordered
  `daily_schedules` dict becomes an association list in insertion order;
* `datetime.date` becomes the `PyDate` structure with an explicit
  day-successor function (the proleptic Gregorian calendar, as in Python);
* the ambient `random` module is threaded explicitly: every function that
  could consult it receives a `sample` argument standing for
  `random.sample`; only `generate_study_recommendations` uses it.

Field and definition names follow the Python source.
-/

/-- Python's built-in `round` to an integer: round half to even. -/
def pyround (x : ℚ) : ℤ :=
  if x - (⌊x⌋ : ℚ) < 1/2 then ⌊x⌋
  else if 1/2 < x - (⌊x⌋ : ℚ) then ⌊x⌋ + 1
  else if ⌊x⌋ % 2 = 0 then ⌊x⌋ else ⌊x⌋ + 1

/-- Python's `round(x, 1)`: round to one decimal place, half to even. -/
def round1 (x : ℚ) : ℚ := (pyround (10 * x) : ℚ) / 10

/-- A subject's base proportions for reading / practice / revision
(`self.subject_complexity` values, lines 16-24). -/
structure ActivitySplit where
  reading : ℚ
  practice : ℚ
  revision : ℚ

/-- `self.subject_complexity` (lines 16-24): the fixed subject table. -/
def subject_complexity (subject : String) : Option ActivitySplit :=
  if subject = "Mathematics" then some ⟨3/10, 5/10, 2/10⟩
  else if subject = "Physics" then some ⟨35/100, 45/100, 2/10⟩
  else if subject = "Chemistry" then some ⟨4/10, 4/10, 2/10⟩
  else if subject = "Biology" then some ⟨5/10, 3/10, 2/10⟩
  else if subject = "Computer Science" then some ⟨25/100, 6/10, 15/100⟩
  else if subject = "English" then some ⟨6/10, 25/100, 15/100⟩
  else if subject = "History" then some ⟨7/10, 15/100, 15/100⟩
  else none

/-- A scenario's multiplicative weights plus intensity label
(`self.scenario_adjustments` values, lines 26-51). -/
structure ScenarioAdjustment where
  reading : ℚ
  practice : ℚ
  revision : ℚ
  intensity : String

/-- `self.scenario_adjustments` (lines 26-51): the fixed scenario table. -/
def scenario_adjustments (scenario : String) : Option ScenarioAdjustment :=
  if scenario = "exam_prep" then some ⟨8/10, 12/10, 15/10, "high"⟩
  else if scenario = "homework" then some ⟨1, 13/10, 7/10, "medium"⟩
  else if scenario = "general_study" then some ⟨11/10, 1, 9/10, "low"⟩
  else if scenario = "project_work" then some ⟨7/10, 15/10, 8/10, "medium"⟩
  else none

/-- The dict returned by `calculate_time_distribution` (lines 77-82). -/
structure TimeDist where
  reading : ℚ
  practice : ℚ
  revision : ℚ
  total : ℚ

/-- `StudyPlanner.calculate_time_distribution` (lines 53-82).
Unknown subjects fall back to the 0.4/0.4/0.2 split; unknown scenarios
fall back to the `general_study` adjustment; the allocation is
renormalized only when the raw total is positive. -/
def calculate_time_distribution (subject : String) (total_hours : ℚ)
    (scenario : String) : TimeDist :=
  let base_dist := (subject_complexity subject).getD ⟨4/10, 4/10, 2/10⟩
  let scenario_adj := (scenario_adjustments scenario).getD ⟨11/10, 1, 9/10, "low"⟩
  let reading_time := base_dist.reading * scenario_adj.reading * total_hours
  let practice_time := base_dist.practice * scenario_adj.practice * total_hours
  let revision_time := base_dist.revision * scenario_adj.revision * total_hours
  let total_calculated := reading_time + practice_time + revision_time
  let reading_norm := if 0 < total_calculated
    then reading_time / total_calculated * total_hours else reading_time
  let practice_norm := if 0 < total_calculated
    then practice_time / total_calculated * total_hours else practice_time
  let revision_norm := if 0 < total_calculated
    then revision_time / total_calculated * total_hours else revision_time
  ⟨round1 reading_norm, round1 practice_norm, round1 revision_norm,
    round1 (reading_norm + practice_norm + revision_norm)⟩

/-- The 30-minute minimum block size (`min_block = 0.5`, line 89). -/
def min_block : ℚ := 1/2

/-- `reading_blocks` (line 92): number of half-hour blocks for reading. -/
def reading_blocks (subject : String) (daily_hours : ℚ) (scenario : String) : ℤ :=
  max 1 (pyround ((calculate_time_distribution subject daily_hours scenario).reading / min_block))

/-- `practice_blocks` (line 93): number of half-hour blocks for practice. -/
def practice_blocks (subject : String) (daily_hours : ℚ) (scenario : String) : ℤ :=
  max 1 (pyround ((calculate_time_distribution subject daily_hours scenario).practice / min_block))

/-- `revision_blocks` (line 94): number of half-hour blocks for revision. -/
def revision_blocks (subject : String) (daily_hours : ℚ) (scenario : String) : ℤ :=
  max 1 (pyround ((calculate_time_distribution subject daily_hours scenario).revision / min_block))

/-- One schedule entry, the dicts appended in lines 101-250:
activity name, duration in hours, description, tips. -/
structure ActivityBlock where
  activity : String
  duration : ℚ
  description : String
  tips : List String

/-- `StudyPlanner.generate_daily_schedule` (lines 84-252).  Each branch
mirrors one scenario; the conditional break insertions keep the Python
thresholds (`> 1.5` for exam_prep, `> 1` for homework, `> 1` and `> 2`
for general study, `> 2` for project_work). -/
def generate_daily_schedule (subject : String) (daily_hours : ℚ)
    (scenario : String) : List ActivityBlock :=
  let rd : ℚ := (reading_blocks subject daily_hours scenario : ℚ) * min_block
  let pd : ℚ := (practice_blocks subject daily_hours scenario : ℚ) * min_block
  let vd : ℚ := (revision_blocks subject daily_hours scenario : ℚ) * min_block
  if scenario = "exam_prep" then
    [⟨"Quick Review", 1/4, "Quick review of previous " ++ subject ++ " topics",
        ["Review flashcards", "Skim through notes", "Identify weak areas"]⟩,
     ⟨"Intensive Practice", pd, "Solve " ++ subject ++ " exam-style problems",
        ["Time yourself strictly", "Practice past exam questions",
         "Focus on problem-solving speed"]⟩]
    ++ (if 3/2 < daily_hours then
        [⟨"Short Break", 1/4, "Quick energy break",
            ["Do breathing exercises", "Stay hydrated"]⟩] else [])
    ++ [⟨"Targeted Reading", rd, "Study difficult " ++ subject ++ " concepts",
          ["Focus on exam syllabus", "Make concise notes",
           "Understand rather than memorize"]⟩,
        ⟨"Active Revision", vd, "Test knowledge and fill gaps",
          ["Self-testing", "Create mind maps", "Explain concepts aloud"]⟩]
  else if scenario = "homework" then
    [⟨"Homework Planning", 1/4, "Review homework requirements and plan approach",
        ["Read instructions carefully", "Break down complex tasks",
         "Gather required materials"]⟩,
     ⟨"Research & Reading", rd, "Research and read relevant " ++ subject ++ " materials",
        ["Use reliable sources", "Take detailed notes", "Cite sources properly"]⟩,
     ⟨"Homework Execution", pd, "Complete " ++ subject ++ " homework assignments",
        ["Follow assignment guidelines", "Show all work clearly", "Double-check answers"]⟩]
    ++ (if 1 < daily_hours then
        [⟨"Break", 1/4, "Rest and recharge",
            ["Step away from work", "Stretch or walk"]⟩] else [])
    ++ [⟨"Review & Polish", vd, "Review completed work and make improvements",
          ["Proofread carefully", "Check formatting", "Ensure completeness"]⟩]
  else if scenario = "project_work" then
    [⟨"Project Planning", 1/2, "Plan " ++ subject ++ " project tasks and milestones",
        ["Set clear objectives", "Create timeline", "Identify resources needed"]⟩,
     ⟨"Research & Investigation", rd, "Research " ++ subject ++ " project topics",
        ["Use multiple sources", "Take organized notes", "Verify information accuracy"]⟩,
     ⟨"Hands-on Work", pd, "Work on " ++ subject ++ " project implementation",
        ["Document your process", "Test ideas iteratively", "Keep backup copies"]⟩]
    ++ (if 2 < daily_hours then
        [⟨"Creative Break", 1/4, "Take a creative break to refresh ideas",
            ["Go for a walk", "Listen to music", "Brainstorm freely"]⟩] else [])
    ++ [⟨"Review & Refine", vd, "Review project progress and refine work",
          ["Assess quality", "Get feedback if possible", "Plan next steps"]⟩]
  else
    [⟨"Reading", rd, "Read " ++ subject ++ " theory and concepts",
        ["Take notes while reading", "Highlight key concepts",
         "Ask questions about unclear topics"]⟩]
    ++ (if 1 < daily_hours then
        [⟨"Break", 1/4, "Short break - stretch, hydrate",
            ["Step away from study area", "Do light physical activity"]⟩] else [])
    ++ [⟨"Practice", pd, "Solve " ++ subject ++ " problems and exercises",
          ["Start with easier problems", "Time yourself", "Check solutions carefully"]⟩]
    ++ (if 2 < daily_hours then
        [⟨"Break", 1/4, "Medium break - refresh mind",
            ["Get fresh air if possible", "Have a healthy snack"]⟩] else [])
    ++ [⟨"Revision", vd, "Review and consolidate " ++ subject ++ " learning",
          ["Summarize key points", "Test yourself",
           "Connect new concepts with previous knowledge"]⟩]

/-- A calendar date, standing for Python's `datetime.date`. -/
structure PyDate where
  year : ℕ
  month : ℕ
  day : ℕ

/-- Gregorian leap-year rule, as used by `datetime`. -/
def is_leap (y : ℕ) : Bool := y % 4 = 0 && (y % 100 != 0 || y % 400 = 0)

/-- Days in a month of a given year. -/
def days_in_month (y m : ℕ) : ℕ :=
  if m = 2 then (if is_leap y then 29 else 28)
  else if m = 4 || m = 6 || m = 9 || m = 11 then 30
  else 31

/-- The day after a given date. -/
def next_day (d : PyDate) : PyDate :=
  if d.day < days_in_month d.year d.month then ⟨d.year, d.month, d.day + 1⟩
  else if d.month < 12 then ⟨d.year, d.month + 1, 1⟩
  else ⟨d.year + 1, 1, 1⟩

/-- `start_date + timedelta(days=n)` (line 276). -/
def addDays (d : PyDate) : ℕ → PyDate
  | 0 => d
  | n + 1 => next_day (addDays d n)

/-- Zero-pad a number to two digits. -/
def pad2 (n : ℕ) : String := if n < 10 then "0" ++ toString n else toString n

/-- Zero-pad a year to four digits. -/
def pad4 (n : ℕ) : String :=
  if n < 10 then "000" ++ toString n
  else if n < 100 then "00" ++ toString n
  else if n < 1000 then "0" ++ toString n
  else toString n

/-- Python's `date.isoformat()`: the `YYYY-MM-DD` string. -/
def isoformat (d : PyDate) : String :=
  pad4 d.year ++ "-" ++ pad2 d.month ++ "-" ++ pad2 d.day

/-- The fixed weekday list (line 273 and line 303). -/
def week_days : List String :=
  ["Monday", "Tuesday", "Wednesday", "Thursday", "Friday", "Saturday", "Sunday"]

/-- The weekend adjustment of lines 279-284: general study scales weekend
hours by 0.8, exam prep scales weekend hours by 1.1, everything else is
unchanged. -/
def adjusted_daily_hours (scenario day : String) (daily_hours : ℚ) : ℚ :=
  if scenario = "general_study" ∧ (day = "Saturday" ∨ day = "Sunday") then
    daily_hours * (8/10)
  else if scenario = "exam_prep" then
    (if day = "Saturday" ∨ day = "Sunday" then daily_hours * (11/10) else daily_hours)
  else daily_hours

/-- The per-subject default focus-area table of lines 313-359, combined
with the `.get(day, [...])` and unknown-subject fallbacks of
lines 361-365. -/
def default_focus_areas (subject day : String) : List String :=
  if subject = "Mathematics" then
    (if day = "Monday" then ["Algebra fundamentals", "Linear equations"]
     else if day = "Tuesday" then ["Geometry concepts", "Area and volume"]
     else if day = "Wednesday" then ["Calculus basics", "Derivatives"]
     else if day = "Thursday" then ["Statistics", "Probability"]
     else if day = "Friday" then ["Problem-solving practice", "Mixed exercises"]
     else if day = "Saturday" then ["Review weak areas", "Practice tests"]
     else if day = "Sunday" then ["Comprehensive review", "Prepare for next week"]
     else ["General study", "Review concepts"])
  else if subject = "Physics" then
    (if day = "Monday" then ["Mechanics", "Newton\x27s laws"]
     else if day = "Tuesday" then ["Energy and momentum", "Work and power"]
     else if day = "Wednesday" then ["Waves and oscillations", "Sound"]
     else if day = "Thursday" then ["Electricity and magnetism", "Circuits"]
     else if day = "Friday" then ["Thermodynamics", "Heat transfer"]
     else if day = "Saturday" then ["Problem-solving", "Laboratory concepts"]
     else if day = "Sunday" then ["Review and integration", "Conceptual understanding"]
     else ["General study", "Review concepts"])
  else if subject = "Chemistry" then
    (if day = "Monday" then ["Atomic structure", "Periodic table"]
     else if day = "Tuesday" then ["Chemical bonding", "Molecular geometry"]
     else if day = "Wednesday" then ["Chemical reactions", "Stoichiometry"]
     else if day = "Thursday" then ["Solutions and concentrations", "Acids and bases"]
     else if day = "Friday" then ["Organic chemistry basics", "Functional groups"]
     else if day = "Saturday" then ["Laboratory techniques", "Safety procedures"]
     else if day = "Sunday" then ["Review and practice", "Concept connections"]
     else ["General study", "Review concepts"])
  else if subject = "Biology" then
    (if day = "Monday" then ["Cell structure and function", "Organelles"]
     else if day = "Tuesday" then ["Genetics and heredity", "DNA and RNA"]
     else if day = "Wednesday" then ["Evolution and natural selection", "Species"]
     else if day = "Thursday" then ["Ecology and ecosystems", "Environmental science"]
     else if day = "Friday" then ["Human anatomy and physiology", "Body systems"]
     else if day = "Saturday" then ["Laboratory skills", "Microscopy"]
     else if day = "Sunday" then ["Review and synthesis", "Biological connections"]
     else ["General study", "Review concepts"])
  else if subject = "Computer Science" then
    (if day = "Monday" then ["Programming fundamentals", "Syntax and logic"]
     else if day = "Tuesday" then ["Data structures", "Arrays and lists"]
     else if day = "Wednesday" then ["Algorithms", "Sorting and searching"]
     else if day = "Thursday" then ["Object-oriented programming", "Classes and objects"]
     else if day = "Friday" then ["Database concepts", "SQL basics"]
     else if day = "Saturday" then ["Project work", "Coding practice"]
     else if day = "Sunday" then ["Code review", "Debugging and testing"]
     else ["General study", "Review concepts"])
  else ["Core concepts", "Practice exercises", "Review materials"]

/-- `StudyPlanner.get_daily_focus_areas` (lines 297-365).  With a
non-empty topic list the topics are sliced across the week
(`topics_per_day = max(1, len // 7)`); Sunday takes every topic from its
start index onwards; a day whose start index is past the end of the list
reuses the front of the list. -/
def get_daily_focus_areas (subject day scenario : String)
    (selected_topics : List String) : List String :=
  if selected_topics ≠ [] then
    let topics_per_day := max 1 (selected_topics.length / 7)
    let day_index := week_days.indexOf day
    let start_idx := day_index * topics_per_day
    let end_idx := start_idx + topics_per_day
    if day = "Sunday" then
      (if start_idx < selected_topics.length then selected_topics.drop start_idx
       else selected_topics.take 2)
    else
      (if start_idx < selected_topics.length then
        (selected_topics.drop start_idx).take (end_idx - start_idx)
       else selected_topics.take 1)
  else default_focus_areas subject day

/-- One value of the `daily_schedules` dict (lines 288-293). -/
structure DaySchedule where
  date : String
  planned_hours : ℚ
  schedule : List ActivityBlock
  focus_areas : List String

/-- The dict built by `create_weekly_plan` (lines 261-295). -/
structure WeeklyPlan where
  subject : String
  scenario : String
  daily_hours : ℚ
  total_weekly_hours : ℚ
  start_date : String
  time_distribution : TimeDist
  selected_topics : List String
  daily_schedules : List (String × DaySchedule)

/-- `StudyPlanner.create_weekly_plan` (lines 254-295).  The `sample`
argument stands for the ambient `random` module; `create_weekly_plan`
never consults it.  `start_date` is the already-parsed date (parsing the
ISO string and the `None -> today` default happen at the call boundary,
lines 256-259). -/
def create_weekly_plan (sample : List String → ℕ → List String)
    (subject : String) (daily_hours : ℚ) (scenario : String)
    (start_date : PyDate) (selected_topics : List String) : WeeklyPlan :=
  ⟨subject, scenario, daily_hours, daily_hours * 7, isoformat start_date,
    calculate_time_distribution subject (daily_hours * 7) scenario,
    selected_topics,
    week_days.enum.map (fun p =>
      let day := p.2
      let current_date := addDays start_date p.1
      let adjusted_hours := adjusted_daily_hours scenario day daily_hours
      (day, ⟨isoformat current_date, round1 adjusted_hours,
             generate_daily_schedule subject adjusted_hours scenario,
             get_daily_focus_areas subject day scenario selected_topics⟩))⟩

/-- The per-subject tip pools of lines 447-490. -/
def subject_tips (subject : String) : Option (List String) :=
  if subject = "Mathematics" then some
    ["🔢 Practice problems daily - math skills deteriorate quickly without use",
     "📋 Keep a formula sheet and review it at the start of each session",
     "👣 Work through problems step-by-step, never skip intermediate steps",
     "🎯 Focus on understanding \x27why\x27 formulas work, not just memorizing them"]
  else if subject = "Physics" then some
    ["📐 Always draw clear diagrams before solving physics problems",
     "🔬 Understand the physical meaning behind every equation you use",
     "📏 Practice dimensional analysis to check if your answers make sense",
     "🌍 Connect physics concepts to real-world phenomena you observe"]
  else if subject = "Chemistry" then some
    ["🧪 Memorize the periodic table structure early - it\x27s your roadmap",
     "⚖️ Practice balancing chemical equations until it becomes automatic",
     "🔗 Connect molecular structure to chemical properties and behavior",
     "🧬 Use 3D models or drawings to visualize molecular structures"]
  else if subject = "Biology" then some
    ["🗺️ Create concept maps to show relationships between biological processes",
     "🧠 Develop mnemonics for complex biological terms and classifications",
     "🔬 Study at multiple levels: molecular → cellular → organism → ecosystem",
     "📊 Use diagrams and flowcharts to understand biological processes"]
  else if subject = "Computer Science" then some
    ["💻 Code every single day, even if just for 30 minutes",
     "🐛 Debug systematically using print statements and debuggers",
     "👀 Read other people\x27s code to learn different problem-solving approaches",
     "🏗️ Build projects that interest you - passion drives learning"]
  else if subject = "English" then some
    ["📚 Read diverse genres to expand vocabulary and writing styles",
     "✍️ Write daily - even journal entries help improve fluency",
     "🎭 Analyze literary techniques and their effects on meaning",
     "🗣️ Practice speaking and presenting to build confidence"]
  else if subject = "History" then some
    ["📅 Create timelines to understand chronological relationships",
     "🔗 Connect historical events to their causes and consequences",
     "📰 Read primary sources to understand historical perspectives",
     "🗺️ Use maps to understand geographical context of events"]
  else none

/-- `StudyPlanner.generate_study_recommendations` (lines 400-495).
`sample pool 2` stands for `random.sample(pool, 2)` (line 493); the
result is truncated to the first 7 entries (line 495). -/
def generate_study_recommendations (sample : List String → ℕ → List String)
    (subject : String) (available_hours : ℚ) (scenario : String) : List String :=
  let base : List String :=
    if scenario = "exam_prep" then
      ["🎯 Create a countdown calendar to your exam date and track progress daily",
       "⏱️ Take practice tests under strict timed conditions to build exam stamina",
       "📊 Focus 60% of your time on your weakest topics - identify gaps early",
       "🔄 Review past exam papers and understand the marking scheme",
       "💡 Create concise summary sheets for last-minute revision"]
    else if scenario = "homework" then
      ["📝 Read assignment instructions twice before starting any work",
       "🗂️ Break large assignments into smaller, manageable tasks with deadlines",
       "📚 Use multiple reliable sources and always cite them properly",
       "✅ Complete assignments 1-2 days before the deadline for review time",
       "🤝 Form study groups to discuss challenging homework problems"]
    else if scenario = "project_work" then
      ["🎨 Start with a clear project outline and timeline with milestones",
       "🔍 Spend 30% of your time on research and planning before execution",
       "💾 Keep regular backups of your work and document your process",
       "🔄 Get feedback early and often - don\x27t wait until the end",
       "🎯 Focus on quality over quantity - depth beats breadth in projects"]
    else
      ["📖 Follow the 50-30-20 rule: 50% new material, 30% practice, 20% review",
       "🧠 Use active recall techniques - test yourself without looking at notes",
       "🔗 Connect new concepts to what you already know for better retention",
       "📅 Study the same subject at the same time daily to build routine",
       "🎯 Set specific learning goals for each study session"]
  let timed : List String :=
    if available_hours < 1 then
      ["⏰ Consider increasing study time to at least 1 hour daily for effective learning"]
    else if 4 < available_hours then
      ["🔄 Break long study sessions into 90-minute chunks with 15-minute breaks"]
    else if 2 ≤ available_hours then
      ["🎯 Use the Pomodoro Technique: 25 minutes focused study + 5 minute breaks"]
    else []
  let tips : List String :=
    match subject_tips subject with
    | some pool => sample pool 2
    | none => []
  (base ++ timed ++ tips).take 7

/-- The summary dict of lines 518-524. -/
structure PlanSummary where
  total_study_hours : ℚ
  reading_hours : ℚ
  practice_hours : ℚ
  revision_hours : ℚ
  average_daily_hours : ℚ

/-- The plan returned by `create_comprehensive_plan`: the weekly plan
plus the keys added in lines 497-526. -/
structure ComprehensivePlan where
  plan : WeeklyPlan
  recommendations : List String
  topics_count : Option ℕ
  summary : PlanSummary

/-- The summand of line 511-512: a day contributes its first block's
duration when that block is literally named `Reading`. -/
def head_reading_duration (schedule : List ActivityBlock) : ℚ :=
  match schedule with
  | [] => 0
  | b :: _ => if b.activity = "Reading" then b.duration else 0

/-- The summand of lines 513-516: total duration of the blocks of a day
bearing exactly the given activity name. -/
def activity_duration_sum (name : String) (schedule : List ActivityBlock) : ℚ :=
  ((schedule.filter (fun b => b.activity == name)).map (fun b => b.duration)).sum

/-- `StudyPlanner.create_comprehensive_plan` (lines 497-526). -/
def create_comprehensive_plan (sample : List String → ℕ → List String)
    (subject : String) (daily_hours : ℚ) (scenario : String)
    (start_date : PyDate) (selected_topics : List String) : ComprehensivePlan :=
  let weekly_plan := create_weekly_plan sample subject daily_hours scenario
    start_date selected_topics
  let recommendations := generate_study_recommendations sample subject
    daily_hours scenario
  let total_reading :=
    (weekly_plan.daily_schedules.map (fun p => head_reading_duration p.2.schedule)).sum
  let total_practice :=
    (weekly_plan.daily_schedules.map (fun p => activity_duration_sum "Practice" p.2.schedule)).sum
  let total_revision :=
    (weekly_plan.daily_schedules.map (fun p => activity_duration_sum "Revision" p.2.schedule)).sum
  ⟨weekly_plan, recommendations,
    (if selected_topics ≠ [] then some selected_topics.length else none),
    ⟨round1 (total_reading + total_practice + total_revision),
     round1 total_reading, round1 total_practice, round1 total_revision,
     round1 ((total_reading + total_practice + total_revision) / 7)⟩⟩

/-! ## Claim-side definitions

The spec's data model (section 3) classifies blocks into the four kinds
Reading, Practice, Revision and Break; the scenario branches only rename
the non-break blocks.  The break blocks are precisely the rest blocks the
code inserts conditionally, recognisable by their names. -/

/-- A block is a rest break: the conditionally inserted 0.25h blocks of
lines 115-121, 160-166, 198-204, 222-228 and 237-243. -/
def is_break_block (b : ActivityBlock) : Bool :=
  b.activity == "Break" || b.activity == "Short Break" || b.activity == "Creative Break"

/-- Total duration of all non-break blocks of a day (the spec's
"Reading+Practice+Revision block durations, breaks excluded"). -/
def non_break_duration_sum (schedule : List ActivityBlock) : ℚ :=
  ((schedule.filter (fun b => !(is_break_block b))).map (fun b => b.duration)).sum

/-- Sum of all non-break block durations across the 7 daily schedules. -/
def weekly_study_block_sum (w : WeeklyPlan) : ℚ :=
  (w.daily_schedules.map (fun p => non_break_duration_sum p.2.schedule)).sum

/-- Total duration of every block of a schedule, breaks included. -/
def total_duration (schedule : List ActivityBlock) : ℚ :=
  (schedule.map (fun b => b.duration)).sum

/-- The activity names standing directly before each break block, in
schedule order. -/
def break_predecessors (schedule : List ActivityBlock) : List String :=
  (schedule.zip schedule.tail).filterMap
    (fun p => if is_break_block p.2 then some p.1.activity else none)

/-- The weekend adjustment as claim C7 words it: times 0.8 on Saturday
and Sunday for general study, times 1.1 on Saturday and Sunday for exam
prep, unchanged in every other case. -/
def claim_adjusted_hours (scenario day : String) (daily_hours : ℚ) : ℚ :=
  if day = "Saturday" ∨ day = "Sunday" then
    (if scenario = "general_study" then daily_hours * (8/10)
     else if scenario = "exam_prep" then daily_hours * (11/10)
     else daily_hours)
  else daily_hours

/-- A concrete deterministic stand-in for `random.sample`: the first n
elements of the pool. -/
def sample_take : List String → ℕ → List String := fun pool n => pool.take n

/-- A second deterministic stand-in for `random.sample`: n elements
starting from the second one. -/
def sample_skip : List String → ℕ → List String := fun pool n => (pool.drop 1).take n

/-- The start date used by the spec's concrete scenario. -/
def jan15_2024 : PyDate := ⟨2024, 1, 15⟩

/-! ## Rounding lemmas -/

/-- `pyround` is within 1/2 of its argument. -/
lemma abs_pyround_sub (x : ℚ) : |(pyround x : ℚ) - x| ≤ 1/2 := by
  have h1 : ((⌊x⌋ : ℤ) : ℚ) ≤ x := Int.floor_le x
  have h2 : x < (⌊x⌋ : ℚ) + 1 := Int.lt_floor_add_one x
  unfold pyround
  split_ifs with ha hb hc
  · rw [abs_le]; constructor <;> linarith
  · push_cast; rw [abs_le]; constructor <;> linarith
  · rw [abs_le]; constructor <;> linarith
  · push_cast; rw [abs_le]; constructor <;> linarith

/-- `round1` is within 1/20 of its argument. -/
lemma abs_round1_sub (x : ℚ) : |round1 x - x| ≤ 1/20 := by
  have h := abs_pyround_sub (10 * x)
  have e : round1 x - x = ((pyround (10 * x) : ℚ) - 10 * x) / 10 := by
    unfold round1; ring
  rw [e, abs_div]
  have e10 : |(10 : ℚ)| = 10 := by norm_num
  rw [e10]
  linarith

/-- `pyround` fixes integers. -/
lemma pyround_intCast (n : ℤ) : pyround (n : ℚ) = n := by
  unfold pyround
  rw [Int.floor_intCast]
  norm_num

/-- `round1` fixes integer multiples of one half. -/
lemma round1_int_half (n : ℤ) : round1 ((n : ℚ) * (1/2)) = (n : ℚ) * (1/2) := by
  have e : (10 : ℚ) * ((n : ℚ) * (1/2)) = ((5 * n : ℤ) : ℚ) := by push_cast; ring
  unfold round1
  rw [e, pyround_intCast]
  push_cast; ring

/-- `pyround` of a nonpositive number is nonpositive. -/
lemma pyround_nonpos {x : ℚ} (hx : x ≤ 0) : pyround x ≤ 0 := by
  have h0 : ⌊x⌋ ≤ 0 := Int.floor_nonpos hx
  have h1 : ((⌊x⌋ : ℤ) : ℚ) ≤ x := Int.floor_le x
  unfold pyround
  split_ifs with ha hb hc
  · exact h0
  · have hneg : ((⌊x⌋ : ℤ) : ℚ) < 0 := by linarith
    have : ⌊x⌋ < 0 := by exact_mod_cast hneg
    omega
  · exact h0
  · have hble : x - (⌊x⌋ : ℚ) ≤ 1/2 := le_of_not_lt hb
    have hage : 1/2 ≤ x - (⌊x⌋ : ℚ) := le_of_not_lt ha
    have hneg : ((⌊x⌋ : ℤ) : ℚ) < 0 := by linarith
    have : ⌊x⌋ < 0 := by exact_mod_cast hneg
    omega

/-- `round1` of a nonpositive number is nonpositive. -/
lemma round1_nonpos {x : ℚ} (hx : x ≤ 0) : round1 x ≤ 0 := by
  have h := pyround_nonpos (x := 10 * x) (by linarith)
  have h2 : ((pyround (10 * x) : ℤ) : ℚ) ≤ 0 := by exact_mod_cast h
  unfold round1
  linarith

/-! ## Table positivity -/

/-- Every subject profile, the default included, has positive shares. -/
lemma base_dist_pos (subject : String) :
    0 < ((subject_complexity subject).getD ⟨4/10, 4/10, 2/10⟩).reading ∧
    0 < ((subject_complexity subject).getD ⟨4/10, 4/10, 2/10⟩).practice ∧
    0 < ((subject_complexity subject).getD ⟨4/10, 4/10, 2/10⟩).revision := by
  unfold subject_complexity
  split_ifs <;> refine ⟨?_, ?_, ?_⟩ <;> norm_num [Option.getD]

/-- Every scenario adjustment, the default included, has positive weights. -/
lemma scenario_adj_pos (scenario : String) :
    0 < ((scenario_adjustments scenario).getD ⟨11/10, 1, 9/10, "low"⟩).reading ∧
    0 < ((scenario_adjustments scenario).getD ⟨11/10, 1, 9/10, "low"⟩).practice ∧
    0 < ((scenario_adjustments scenario).getD ⟨11/10, 1, 9/10, "low"⟩).revision := by
  unfold scenario_adjustments
  split_ifs <;> refine ⟨?_, ?_, ?_⟩ <;> norm_num [Option.getD]

/-! ## Claim C3 -/

/-- Claim C3, counterexample: for Mathematics under general_study at
total_hours = 4.74 the three rounded allocations are 1.5, 2.3 and 0.8,
whose sum 4.6 misses 4.74 by 0.14 > 0.1, so the claimed 0.1 tolerance
fails. -/
theorem c3_counterexample :
    ¬ (|(calculate_time_distribution "Mathematics" (237/50) "general_study").reading
        + (calculate_time_distribution "Mathematics" (237/50) "general_study").practice
        + (calculate_time_distribution "Mathematics" (237/50) "general_study").revision
        - 237/50| ≤ 1/10) := by
  simp [calculate_time_distribution, subject_complexity, scenario_adjustments]
  norm_num [round1, pyround]
  rw [abs_of_pos] <;> norm_num

/-- Claim C3, amended: each rounded output moves by at most 0.05, so for
every subject and scenario (table entries and fallbacks alike) and every
total_hours > 0 the three outputs of `calculate_time_distribution` sum to
total_hours within 0.15; the claimed 0.1 tolerance is not achieved (see
the counterexample), 0.15 is. -/
theorem c3_amended (subject scenario : String) (T : ℚ) (hT : 0 < T) :
    |(calculate_time_distribution subject T scenario).reading
      + (calculate_time_distribution subject T scenario).practice
      + (calculate_time_distribution subject T scenario).revision
      - T| ≤ 3/20 := by
  obtain ⟨hbr, hbp, hbv⟩ := base_dist_pos subject
  obtain ⟨har, hap, hav⟩ := scenario_adj_pos scenario
  set B := (subject_complexity subject).getD ⟨4/10, 4/10, 2/10⟩ with hB
  set A := (scenario_adjustments scenario).getD ⟨11/10, 1, 9/10, "low"⟩ with hA
  have hrt : 0 < B.reading * A.reading * T := by positivity
  have hpt : 0 < B.practice * A.practice * T := by positivity
  have hvt : 0 < B.revision * A.revision * T := by positivity
  have hS : 0 < B.reading * A.reading * T + B.practice * A.practice * T
      + B.revision * A.revision * T := by linarith
  have hSne : B.reading * A.reading * T + B.practice * A.practice * T
      + B.revision * A.revision * T ≠ 0 := ne_of_gt hS
  simp only [calculate_time_distribution, ← hB, ← hA, if_pos hS]
  have hsum : B.reading * A.reading * T
        / (B.reading * A.reading * T + B.practice * A.practice * T
           + B.revision * A.revision * T) * T
      + B.practice * A.practice * T
        / (B.reading * A.reading * T + B.practice * A.practice * T
           + B.revision * A.revision * T) * T
      + B.revision * A.revision * T
        / (B.reading * A.reading * T + B.practice * A.practice * T
           + B.revision * A.revision * T) * T = T := by
    field_simp
    ring
  have e1 := abs_round1_sub (B.reading * A.reading * T
    / (B.reading * A.reading * T + B.practice * A.practice * T
       + B.revision * A.revision * T) * T)
  have e2 := abs_round1_sub (B.practice * A.practice * T
    / (B.reading * A.reading * T + B.practice * A.practice * T
       + B.revision * A.revision * T) * T)
  have e3 := abs_round1_sub (B.revision * A.revision * T
    / (B.reading * A.reading * T + B.practice * A.practice * T
       + B.revision * A.revision * T) * T)
  rw [abs_le] at e1 e2 e3 ⊢
  constructor <;> linarith

/-- Witness for C3 amended at Mathematics, general_study, one hour. -/
theorem c3_amended_witness :
    (0 : ℚ) < 1 ∧
    |(calculate_time_distribution "Mathematics" 1 "general_study").reading
      + (calculate_time_distribution "Mathematics" 1 "general_study").practice
      + (calculate_time_distribution "Mathematics" 1 "general_study").revision
      - 1| ≤ 3/20 :=
  ⟨by norm_num, c3_amended "Mathematics" "general_study" 1 (by norm_num)⟩

/-! ## Claim C7 -/

/-- The enumerated weekday list, evaluated. -/
lemma week_days_enum : week_days.enum =
    [(0, "Monday"), (1, "Tuesday"), (2, "Wednesday"), (3, "Thursday"),
     (4, "Friday"), (5, "Saturday"), (6, "Sunday")] := rfl

/-- Claim C7: every day entry of a weekly plan is built from the
adjusted hours of the claim (0.8 weekend factor for general_study,
1.1 weekend factor for exam_prep, unchanged otherwise), both for the
recorded planned_hours and for the hours handed to the daily schedule
builder. -/
theorem c7_adjusted_hours (sample : List String → ℕ → List String)
    (subject scenario : String) (h : ℚ) (d : PyDate) (topics : List String) :
    (create_weekly_plan sample subject h scenario d topics).daily_schedules
      = week_days.enum.map (fun p =>
          (p.2, ⟨isoformat (addDays d p.1),
                 round1 (claim_adjusted_hours scenario p.2 h),
                 generate_daily_schedule subject (claim_adjusted_hours scenario p.2 h) scenario,
                 get_daily_focus_areas subject p.2 scenario topics⟩)) := by
  by_cases hg : scenario = "general_study"
  · subst hg
    simp [create_weekly_plan, week_days_enum, adjusted_daily_hours, claim_adjusted_hours]
  · by_cases he : scenario = "exam_prep"
    · subst he
      simp [create_weekly_plan, week_days_enum, adjusted_daily_hours, claim_adjusted_hours]
    · simp [create_weekly_plan, week_days_enum, adjusted_daily_hours,
        claim_adjusted_hours, hg, he]

/-! ## Claim C9 -/

/-- Claim C9: `create_weekly_plan` never consults the ambient random
source, so two invocations with the same arguments agree whatever the
random state; the weekly-plan part of the comprehensive plan is equally
unaffected; the one randomized step, sampling the subject tip pool inside
`generate_study_recommendations`, genuinely depends on the random
source. -/
theorem c9_deterministic :
    (∀ (s1 s2 : List String → ℕ → List String) (subject scenario : String)
        (h : ℚ) (d : PyDate) (topics : List String),
        create_weekly_plan s1 subject h scenario d topics
          = create_weekly_plan s2 subject h scenario d topics) ∧
    (∀ (s1 s2 : List String → ℕ → List String) (subject scenario : String)
        (h : ℚ) (d : PyDate) (topics : List String),
        (create_comprehensive_plan s1 subject h scenario d topics).plan
          = (create_comprehensive_plan s2 subject h scenario d topics).plan) ∧
    ∃ (s1 s2 : List String → ℕ → List String),
      (create_comprehensive_plan s1 "Mathematics" 3 "general_study" jan15_2024 []).recommendations
        ≠ (create_comprehensive_plan s2 "Mathematics" 3 "general_study" jan15_2024 []).recommendations := by
  refine ⟨fun _ _ _ _ _ _ _ => rfl, fun _ _ _ _ _ _ _ => rfl,
    ⟨sample_take, sample_skip, ?_⟩⟩
  simp only [create_comprehensive_plan, generate_study_recommendations,
    subject_tips, sample_take, sample_skip]
  norm_num
  simp

/-! ## Claim C6 -/

/-- Every daily schedule, in every scenario branch, totals at least one
and a half hours of blocks, since each of the three activity durations is
at least one half-hour block. -/
lemma total_duration_ge (subject scenario : String) (h : ℚ) :
    (3:ℚ)/2 ≤ total_duration (generate_daily_schedule subject h scenario) := by
  have hr : (1:ℚ) ≤ (reading_blocks subject h scenario : ℚ) := by
    exact_mod_cast le_max_left 1 (pyround ((calculate_time_distribution subject h scenario).reading / min_block))
  have hp : (1:ℚ) ≤ (practice_blocks subject h scenario : ℚ) := by
    exact_mod_cast le_max_left 1 (pyround ((calculate_time_distribution subject h scenario).practice / min_block))
  have hv : (1:ℚ) ≤ (revision_blocks subject h scenario : ℚ) := by
    exact_mod_cast le_max_left 1 (pyround ((calculate_time_distribution subject h scenario).revision / min_block))
  simp only [min_block] at hr hp hv
  simp only [generate_daily_schedule]
  split_ifs <;> simp [total_duration, min_block] <;> linarith

/-- The three study durations appear among the block durations of the
daily schedule, in every scenario branch. -/
lemma study_durations_mem (subject scenario : String) (h : ℚ) :
    ((reading_blocks subject h scenario : ℚ) * min_block)
        ∈ (generate_daily_schedule subject h scenario).map (fun b => b.duration) ∧
    ((practice_blocks subject h scenario : ℚ) * min_block)
        ∈ (generate_daily_schedule subject h scenario).map (fun b => b.duration) ∧
    ((revision_blocks subject h scenario : ℚ) * min_block)
        ∈ (generate_daily_schedule subject h scenario).map (fun b => b.duration) := by
  simp only [generate_daily_schedule]
  split_ifs <;> simp

/-- Claim C6: for every subject, scenario and daily_hours, each of the
three study activities gets `max(1, round(allocated / 0.5))` half-hour
blocks, its duration (that count times 0.5) is at least 0.5h and appears
as a block duration in the schedule; and at daily_hours = 0.5 the
scheduled total already exceeds the requested hours, in every scenario. -/
theorem c6_block_granularity (subject scenario : String) (h : ℚ) :
    reading_blocks subject h scenario
        = max 1 (pyround ((calculate_time_distribution subject h scenario).reading / (1/2))) ∧
    practice_blocks subject h scenario
        = max 1 (pyround ((calculate_time_distribution subject h scenario).practice / (1/2))) ∧
    revision_blocks subject h scenario
        = max 1 (pyround ((calculate_time_distribution subject h scenario).revision / (1/2))) ∧
    (1:ℚ)/2 ≤ (reading_blocks subject h scenario : ℚ) * min_block ∧
    (1:ℚ)/2 ≤ (practice_blocks subject h scenario : ℚ) * min_block ∧
    (1:ℚ)/2 ≤ (revision_blocks subject h scenario : ℚ) * min_block ∧
    ((reading_blocks subject h scenario : ℚ) * min_block)
        ∈ (generate_daily_schedule subject h scenario).map (fun b => b.duration) ∧
    ((practice_blocks subject h scenario : ℚ) * min_block)
        ∈ (generate_daily_schedule subject h scenario).map (fun b => b.duration) ∧
    ((revision_blocks subject h scenario : ℚ) * min_block)
        ∈ (generate_daily_schedule subject h scenario).map (fun b => b.duration) ∧
    (1:ℚ)/2 < total_duration (generate_daily_schedule subject (1/2) scenario) := by
  obtain ⟨m1, m2, m3⟩ := study_durations_mem subject scenario h
  have hr : (1:ℚ) ≤ (reading_blocks subject h scenario : ℚ) := by
    exact_mod_cast le_max_left 1 (pyround ((calculate_time_distribution subject h scenario).reading / min_block))
  have hp : (1:ℚ) ≤ (practice_blocks subject h scenario : ℚ) := by
    exact_mod_cast le_max_left 1 (pyround ((calculate_time_distribution subject h scenario).practice / min_block))
  have hv : (1:ℚ) ≤ (revision_blocks subject h scenario : ℚ) := by
    exact_mod_cast le_max_left 1 (pyround ((calculate_time_distribution subject h scenario).revision / min_block))
  have htot := total_duration_ge subject scenario (1/2)
  refine ⟨rfl, rfl, rfl, ?_, ?_, ?_, m1, m2, m3, by linarith⟩ <;>
    simp only [min_block] <;> linarith

/-! ## Claim C4 -/

/-- Claim C4, counterexample: at daily_hours = 1.25 > 1 the exam_prep
schedule contains no break block at all (the exam_prep branch inserts its
only break when daily_hours > 1.5), refuting the claimed uniform
"break after Reading exactly when daily_hours > 1" rule. -/
theorem c4_counterexample :
    (1 : ℚ) < 5/4 ∧
    (generate_daily_schedule "Mathematics" (5/4) "exam_prep").filter is_break_block = [] := by
  constructor
  · norm_num
  · have hc : ¬ ((3:ℚ)/2 < 5/4) := by norm_num
    simp [generate_daily_schedule, is_break_block, hc]

/-- Claim C4, amended: every break block lasts 0.25h, but the insertion
rule is scenario-specific: general_study inserts a break after Reading
iff daily_hours > 1 and after Practice iff daily_hours > 2; exam_prep
inserts its single break after Intensive Practice iff daily_hours > 1.5;
homework after Homework Execution iff daily_hours > 1; project_work after
Hands-on Work iff daily_hours > 2. -/
theorem c4_amended (subject : String) (h : ℚ) :
    break_predecessors (generate_daily_schedule subject h "general_study")
      = (if 1 < h then ["Reading"] else []) ++ (if 2 < h then ["Practice"] else []) ∧
    break_predecessors (generate_daily_schedule subject h "exam_prep")
      = (if 3/2 < h then ["Intensive Practice"] else []) ∧
    break_predecessors (generate_daily_schedule subject h "homework")
      = (if 1 < h then ["Homework Execution"] else []) ∧
    break_predecessors (generate_daily_schedule subject h "project_work")
      = (if 2 < h then ["Hands-on Work"] else []) ∧
    ((generate_daily_schedule subject h "general_study").filter is_break_block).all
        (fun b => b.duration == 1/4) = true ∧
    ((generate_daily_schedule subject h "exam_prep").filter is_break_block).all
        (fun b => b.duration == 1/4) = true ∧
    ((generate_daily_schedule subject h "homework").filter is_break_block).all
        (fun b => b.duration == 1/4) = true ∧
    ((generate_daily_schedule subject h "project_work").filter is_break_block).all
        (fun b => b.duration == 1/4) = true := by
  by_cases h1 : 1 < h <;> by_cases h2 : 2 < h <;> by_cases h15 : 3/2 < h <;>
    simp [generate_daily_schedule, break_predecessors, is_break_block, h1, h2, h15]

/-! ## Claim C8 -/

/-- `round1 0 = 0`. -/
lemma round1_zero : round1 0 = 0 := by norm_num [round1, pyround]

/-- Claim C8, counterexample: called with total_hours = -1 (which is
≤ 0) the distribution is not all zero: the raw products are negative,
the 0-guard skips normalization, and the reading allocation comes out as
-0.3. -/
theorem c8_counterexample :
    (-1 : ℚ) ≤ 0 ∧
    (calculate_time_distribution "Mathematics" (-1) "general_study").reading ≠ 0 := by
  constructor
  · norm_num
  · simp [calculate_time_distribution, subject_complexity, scenario_adjustments]
    norm_num [round1, pyround]

/-- Claim C8, amended: no call raises (all functions are total); at
total_hours = 0 every allocation is exactly 0; for negative total_hours
the divide-by-zero guard also skips normalization but returns the rounded
raw products, which are nonpositive rather than zero; and the schedule
builder still returns a non-empty degenerate schedule. -/
theorem c8_amended (subject scenario : String) (T : ℚ) (hT : T ≤ 0) :
    calculate_time_distribution subject 0 scenario = ⟨0, 0, 0, 0⟩ ∧
    (calculate_time_distribution subject T scenario).reading ≤ 0 ∧
    (calculate_time_distribution subject T scenario).practice ≤ 0 ∧
    (calculate_time_distribution subject T scenario).revision ≤ 0 ∧
    generate_daily_schedule subject T scenario ≠ [] := by
  obtain ⟨hbr, hbp, hbv⟩ := base_dist_pos subject
  obtain ⟨har, hap, hav⟩ := scenario_adj_pos scenario
  set B := (subject_complexity subject).getD ⟨4/10, 4/10, 2/10⟩ with hB
  set A := (scenario_adjustments scenario).getD ⟨11/10, 1, 9/10, "low"⟩ with hA
  have hrt : B.reading * A.reading * T ≤ 0 := by nlinarith [mul_pos hbr har]
  have hpt : B.practice * A.practice * T ≤ 0 := by nlinarith [mul_pos hbp hap]
  have hvt : B.revision * A.revision * T ≤ 0 := by nlinarith [mul_pos hbv hav]
  have hnot : ¬ (0 < B.reading * A.reading * T + B.practice * A.practice * T
      + B.revision * A.revision * T) := by
    push_neg
    linarith
  refine ⟨?_, ?_, ?_, ?_, ?_⟩
  · simp [calculate_time_distribution, ← hB, ← hA, round1_zero]
  · simp only [calculate_time_distribution, ← hB, ← hA, if_neg hnot]
    exact round1_nonpos hrt
  · simp only [calculate_time_distribution, ← hB, ← hA, if_neg hnot]
    exact round1_nonpos hpt
  · simp only [calculate_time_distribution, ← hB, ← hA, if_neg hnot]
    exact round1_nonpos hvt
  · simp only [generate_daily_schedule]
    split_ifs <;> simp

/-- Witness for C8 amended at total_hours = -1. -/
theorem c8_amended_witness :
    (-1 : ℚ) ≤ 0 ∧
    (calculate_time_distribution "Mathematics" 0 "general_study" = ⟨0, 0, 0, 0⟩ ∧
     (calculate_time_distribution "Mathematics" (-1) "general_study").reading ≤ 0 ∧
     (calculate_time_distribution "Mathematics" (-1) "general_study").practice ≤ 0 ∧
     (calculate_time_distribution "Mathematics" (-1) "general_study").revision ≤ 0 ∧
     generate_daily_schedule "Mathematics" (-1) "general_study" ≠ []) :=
  ⟨by norm_num,
   by
    obtain ⟨a, b, c, d, e⟩ := c8_amended "Mathematics" "general_study" (-1) (by norm_num)
    exact ⟨a, b, c, d, e⟩⟩

/-! ## Claims C5 and C10 -/

/-- Index of each weekday in the fixed list. -/
lemma week_days_indexOf :
    week_days.indexOf "Monday" = 0 ∧ week_days.indexOf "Tuesday" = 1 ∧
    week_days.indexOf "Wednesday" = 2 ∧ week_days.indexOf "Thursday" = 3 ∧
    week_days.indexOf "Friday" = 4 ∧ week_days.indexOf "Saturday" = 5 ∧
    week_days.indexOf "Sunday" = 6 := by decide

/-- Claim C5, counterexample: with a single selected topic, Monday
receives one topic, not `len // 7 = 0` topics: `topics_per_day` is
`max(1, len // 7)`, never zero. -/
theorem c5_counterexample :
    ¬ ((get_daily_focus_areas "Mathematics" "Monday" "general_study" ["Algebra"]).length
        = (["Algebra"] : List String).length / 7) := by decide

/-- Claim C5, amended: for a topic list of at least 7 entries (so that
`len // 7 ≥ 1` equals `max(1, len // 7)`) each of Monday through Saturday
receives the slice of `len // 7` topics starting at `day_index * (len // 7)`,
in order, and Sunday receives every topic from `6 * (len // 7)` on, i.e.
the remainder is folded into Sunday.  For shorter non-empty lists the
claimed `len // 7` per day fails (see the counterexample); C10 covers
that regime. -/
theorem c5_amended (subject scenario : String) (topics : List String)
    (h7 : 7 ≤ topics.length) :
    get_daily_focus_areas subject "Monday" scenario topics
      = (topics.drop (0 * (topics.length / 7))).take (topics.length / 7) ∧
    get_daily_focus_areas subject "Tuesday" scenario topics
      = (topics.drop (1 * (topics.length / 7))).take (topics.length / 7) ∧
    get_daily_focus_areas subject "Wednesday" scenario topics
      = (topics.drop (2 * (topics.length / 7))).take (topics.length / 7) ∧
    get_daily_focus_areas subject "Thursday" scenario topics
      = (topics.drop (3 * (topics.length / 7))).take (topics.length / 7) ∧
    get_daily_focus_areas subject "Friday" scenario topics
      = (topics.drop (4 * (topics.length / 7))).take (topics.length / 7) ∧
    get_daily_focus_areas subject "Saturday" scenario topics
      = (topics.drop (5 * (topics.length / 7))).take (topics.length / 7) ∧
    get_daily_focus_areas subject "Sunday" scenario topics
      = topics.drop (6 * (topics.length / 7)) := by
  obtain ⟨i1, i2, i3, i4, i5, i6, i7⟩ := week_days_indexOf
  have hne : topics ≠ [] := by
    intro hnil
    rw [hnil] at h7
    simp at h7
  have hq1 : 1 ≤ topics.length / 7 := (Nat.one_le_div_iff (by norm_num)).mpr h7
  have hmaxq : max 1 (topics.length / 7) = topics.length / 7 := max_eq_right hq1
  refine ⟨?_, ?_, ?_, ?_, ?_, ?_, ?_⟩
  · have hck : 0 < topics.length := by omega
    simp [get_daily_focus_areas, hne, i1, hmaxq, hck]
  · have hck : topics.length / 7 < topics.length := by omega
    simp [get_daily_focus_areas, hne, i2, hmaxq, hck]
  · have hck : 2 * (topics.length / 7) < topics.length := by omega
    simp [get_daily_focus_areas, hne, i3, hmaxq, hck]
  · have hck : 3 * (topics.length / 7) < topics.length := by omega
    simp [get_daily_focus_areas, hne, i4, hmaxq, hck]
  · have hck : 4 * (topics.length / 7) < topics.length := by omega
    simp [get_daily_focus_areas, hne, i5, hmaxq, hck]
  · have hck : 5 * (topics.length / 7) < topics.length := by omega
    simp [get_daily_focus_areas, hne, i6, hmaxq, hck]
  · have hck : 6 * (topics.length / 7) < topics.length := by omega
    simp [get_daily_focus_areas, hne, i7, hmaxq, hck]

/-- Witness for C5 amended with ten topics: Monday through Saturday each
get one topic, Sunday gets the last four. -/
theorem c5_amended_witness :
    7 ≤ (["T01", "T02", "T03", "T04", "T05", "T06", "T07", "T08", "T09", "T10"] :
          List String).length ∧
    get_daily_focus_areas "Mathematics" "Monday" "general_study"
        ["T01", "T02", "T03", "T04", "T05", "T06", "T07", "T08", "T09", "T10"]
      = [ "T01" ] ∧
    get_daily_focus_areas "Mathematics" "Sunday" "general_study"
        ["T01", "T02", "T03", "T04", "T05", "T06", "T07", "T08", "T09", "T10"]
      = ["T07", "T08", "T09", "T10"] := by
  have h := c5_amended "Mathematics" "general_study"
    ["T01", "T02", "T03", "T04", "T05", "T06", "T07", "T08", "T09", "T10"] (by decide)
  refine ⟨by decide, ?_, ?_⟩
  · rw [h.1]
    decide
  · rw [h.2.2.2.2.2.2]
    decide

/-- Claim C10: for a non-empty topic list with fewer than 7 entries every
day gets `max(1, len // 7) = 1` topic slot; Tuesday through Saturday fall
back to the first topic once their start index passes the end of the
list, Sunday always takes the first two topics, and so the first topic
appears as a focus area on both Monday and one of the later days. -/
theorem c10_topic_reuse (subject scenario : String) (topics : List String)
    (hne : topics ≠ []) (hlt : topics.length < 7) :
    (topics.length ≤ 1 →
      get_daily_focus_areas subject "Tuesday" scenario topics = topics.take 1) ∧
    (topics.length ≤ 2 →
      get_daily_focus_areas subject "Wednesday" scenario topics = topics.take 1) ∧
    (topics.length ≤ 3 →
      get_daily_focus_areas subject "Thursday" scenario topics = topics.take 1) ∧
    (topics.length ≤ 4 →
      get_daily_focus_areas subject "Friday" scenario topics = topics.take 1) ∧
    (topics.length ≤ 5 →
      get_daily_focus_areas subject "Saturday" scenario topics = topics.take 1) ∧
    get_daily_focus_areas subject "Sunday" scenario topics = topics.take 2 ∧
    ∃ t, t ∈ get_daily_focus_areas subject "Monday" scenario topics ∧
         t ∈ get_daily_focus_areas subject "Sunday" scenario topics := by
  obtain ⟨i1, i2, i3, i4, i5, i6, i7⟩ := week_days_indexOf
  have hq : topics.length / 7 = 0 := Nat.div_eq_of_lt hlt
  have hmax : max 1 (topics.length / 7) = 1 := by simp [hq]
  have h0 : 0 < topics.length := List.length_pos.mpr hne
  have hc6 : ¬ (6 < topics.length) := by omega
  have hsun : get_daily_focus_areas subject "Sunday" scenario topics
      = topics.take 2 := by
    simp [get_daily_focus_areas, hne, i7, hmax, hc6]
  have hmon : get_daily_focus_areas subject "Monday" scenario topics
      = topics.take 1 := by
    simp [get_daily_focus_areas, hne, i1, hmax, h0]
  refine ⟨?_, ?_, ?_, ?_, ?_, hsun, ?_⟩
  · intro hle
    have hc : ¬ (1 < topics.length) := by omega
    simp [get_daily_focus_areas, hne, i2, hmax, hc]
  · intro hle
    have hc : ¬ (2 < topics.length) := by omega
    simp [get_daily_focus_areas, hne, i3, hmax, hc]
  · intro hle
    have hc : ¬ (3 < topics.length) := by omega
    simp [get_daily_focus_areas, hne, i4, hmax, hc]
  · intro hle
    have hc : ¬ (4 < topics.length) := by omega
    simp [get_daily_focus_areas, hne, i5, hmax, hc]
  · intro hle
    have hc : ¬ (5 < topics.length) := by omega
    simp [get_daily_focus_areas, hne, i6, hmax, hc]
  · obtain ⟨a, l, hal⟩ := List.exists_cons_of_ne_nil hne
    subst hal
    exact ⟨a, by rw [hmon]; simp, by rw [hsun]; simp⟩

/-- Witness for C10 with three topics: Thursday through Saturday reuse
the first topic, Sunday takes the first two. -/
theorem c10_topic_reuse_witness :
    (["Sets", "Maps", "Groups"] : List String) ≠ [] ∧
    (["Sets", "Maps", "Groups"] : List String).length < 7 ∧
    (get_daily_focus_areas "Mathematics" "Thursday" "general_study"
        ["Sets", "Maps", "Groups"] = ["Sets"] ∧
     get_daily_focus_areas "Mathematics" "Sunday" "general_study"
        ["Sets", "Maps", "Groups"] = ["Sets", "Maps"]) := by
  have h := c10_topic_reuse "Mathematics" "general_study" ["Sets", "Maps", "Groups"]
    (by decide) (by decide)
  refine ⟨by decide, by decide, ?_, ?_⟩
  · rw [h.2.2.1 (by decide)]
    decide
  · rw [h.2.2.2.2.2.1]
    decide

/-! ## Claim C1 -/

/-- Outside the three specially named scenarios the schedule builder
takes the general-study branch, whose blocks are literally named Reading,
Practice, Revision and Break; the three summary summands of
lines 511-516 then pick up exactly the three study durations, and the
non-break total is their sum, an integer number of half hours. -/
lemma general_day_sums (subject scenario : String) (hi : ℚ)
    (h1 : scenario ≠ "exam_prep") (h2 : scenario ≠ "homework")
    (h3 : scenario ≠ "project_work") :
    head_reading_duration (generate_daily_schedule subject hi scenario)
        = (reading_blocks subject hi scenario : ℚ) * min_block ∧
    activity_duration_sum "Practice" (generate_daily_schedule subject hi scenario)
        = (practice_blocks subject hi scenario : ℚ) * min_block ∧
    activity_duration_sum "Revision" (generate_daily_schedule subject hi scenario)
        = (revision_blocks subject hi scenario : ℚ) * min_block ∧
    non_break_duration_sum (generate_daily_schedule subject hi scenario)
        = ((reading_blocks subject hi scenario + practice_blocks subject hi scenario
            + revision_blocks subject hi scenario : ℤ) : ℚ) * min_block := by
  by_cases hb1 : 1 < hi <;> by_cases hb2 : 2 < hi <;>
    simp [generate_daily_schedule, h1, h2, h3, hb1, hb2, head_reading_duration,
      activity_duration_sum, non_break_duration_sum, is_break_block] <;>
    push_cast <;> ring

/-- A general-branch daily schedule: the three summary summands add up to
the non-break total, which is an integer number of half hours. -/
lemma day_entry_sum (subject scenario : String) (hi : ℚ)
    (h1 : scenario ≠ "exam_prep") (h2 : scenario ≠ "homework")
    (h3 : scenario ≠ "project_work") :
    head_reading_duration (generate_daily_schedule subject hi scenario)
        + activity_duration_sum "Practice" (generate_daily_schedule subject hi scenario)
        + activity_duration_sum "Revision" (generate_daily_schedule subject hi scenario)
        = non_break_duration_sum (generate_daily_schedule subject hi scenario) ∧
    ∃ n : ℤ, non_break_duration_sum (generate_daily_schedule subject hi scenario)
        = (n : ℚ) * (1/2) := by
  obtain ⟨hr, hp, hv, hn⟩ := general_day_sums subject scenario hi h1 h2 h3
  constructor
  · rw [hr, hp, hv, hn]
    push_cast
    simp only [min_block]
    ring
  · refine ⟨reading_blocks subject hi scenario + practice_blocks subject hi scenario
      + revision_blocks subject hi scenario, ?_⟩
    rw [hn]
    simp only [min_block]

/-- Summing the three per-day summands over any day list equals summing
the per-day non-break totals, once they agree day by day. -/
lemma sum3_eq_sum (L : List (String × DaySchedule))
    (H : ∀ p ∈ L,
        head_reading_duration p.2.schedule
          + activity_duration_sum "Practice" p.2.schedule
          + activity_duration_sum "Revision" p.2.schedule
          = non_break_duration_sum p.2.schedule) :
    (L.map (fun p => head_reading_duration p.2.schedule)).sum
      + (L.map (fun p => activity_duration_sum "Practice" p.2.schedule)).sum
      + (L.map (fun p => activity_duration_sum "Revision" p.2.schedule)).sum
      = (L.map (fun p => non_break_duration_sum p.2.schedule)).sum := by
  induction L with
  | nil => simp
  | cons hd tl ih =>
    have hhd := H hd (List.mem_cons_self hd tl)
    have htl := ih (fun p hp => H p (List.mem_cons_of_mem hd hp))
    simp only [List.map_cons, List.sum_cons]
    linarith

/-- A sum of per-day half-hour multiples is a half-hour multiple. -/
lemma sum_half (L : List (String × DaySchedule))
    (H : ∀ p ∈ L, ∃ n : ℤ, non_break_duration_sum p.2.schedule = (n : ℚ) * (1/2)) :
    ∃ K : ℤ, (L.map (fun p => non_break_duration_sum p.2.schedule)).sum
        = (K : ℚ) * (1/2) := by
  induction L with
  | nil => exact ⟨0, by simp⟩
  | cons hd tl ih =>
    obtain ⟨n, hn⟩ := H hd (List.mem_cons_self hd tl)
    obtain ⟨K, hK⟩ := ih (fun p hp => H p (List.mem_cons_of_mem hd hp))
    refine ⟨n + K, ?_⟩
    simp only [List.map_cons, List.sum_cons]
    rw [hn, hK]
    push_cast
    ring

/-- Claim C1, amended: `summary.total_study_hours` sums only blocks
literally named Reading (in first position), Practice and Revision; those
names occur exactly in the general-study branch, so for every scenario
other than exam_prep, homework and project_work the reported total equals
the sum of all non-break block durations over the 7 days, breaks
excluded.  For the three renamed-block scenarios the claimed equality
fails (see the counterexample): the summary is 0 there. -/
theorem c1_amended (sample : List String → ℕ → List String)
    (subject scenario : String) (h : ℚ) (d : PyDate) (topics : List String)
    (hpos : 0 < h) (h1 : scenario ≠ "exam_prep") (h2 : scenario ≠ "homework")
    (h3 : scenario ≠ "project_work") :
    (create_comprehensive_plan sample subject h scenario d topics).summary.total_study_hours
      = weekly_study_block_sum
          (create_comprehensive_plan sample subject h scenario d topics).plan := by
  have H : ∀ p ∈ (create_weekly_plan sample subject h scenario d topics).daily_schedules,
      (head_reading_duration p.2.schedule
          + activity_duration_sum "Practice" p.2.schedule
          + activity_duration_sum "Revision" p.2.schedule
          = non_break_duration_sum p.2.schedule) ∧
      ∃ n : ℤ, non_break_duration_sum p.2.schedule = (n : ℚ) * (1/2) := by
    intro p hp
    simp [create_weekly_plan, week_days_enum] at hp
    rcases hp with rfl | rfl | rfl | rfl | rfl | rfl | rfl <;>
      exact day_entry_sum subject scenario _ h1 h2 h3
  have HA := sum3_eq_sum (create_weekly_plan sample subject h scenario d topics).daily_schedules
    (fun p hp => (H p hp).1)
  obtain ⟨K, hK⟩ := sum_half (create_weekly_plan sample subject h scenario d topics).daily_schedules
    (fun p hp => (H p hp).2)
  show round1
      (((create_weekly_plan sample subject h scenario d topics).daily_schedules.map
          (fun p => head_reading_duration p.2.schedule)).sum
        + ((create_weekly_plan sample subject h scenario d topics).daily_schedules.map
            (fun p => activity_duration_sum "Practice" p.2.schedule)).sum
        + ((create_weekly_plan sample subject h scenario d topics).daily_schedules.map
            (fun p => activity_duration_sum "Revision" p.2.schedule)).sum)
      = weekly_study_block_sum (create_weekly_plan sample subject h scenario d topics)
  rw [HA]
  show round1
      (((create_weekly_plan sample subject h scenario d topics).daily_schedules.map
          (fun p => non_break_duration_sum p.2.schedule)).sum)
      = ((create_weekly_plan sample subject h scenario d topics).daily_schedules.map
          (fun p => non_break_duration_sum p.2.schedule)).sum
  rw [hK]
  exact round1_int_half K

/-- Witness for C1 amended: general_study, Mathematics, 3 daily hours. -/
theorem c1_amended_witness :
    (0 : ℚ) < 3 ∧ ("general_study" : String) ≠ "exam_prep" ∧
    ("general_study" : String) ≠ "homework" ∧
    ("general_study" : String) ≠ "project_work" ∧
    (create_comprehensive_plan sample_take "Mathematics" 3 "general_study"
        jan15_2024 []).summary.total_study_hours
      = weekly_study_block_sum
          (create_comprehensive_plan sample_take "Mathematics" 3 "general_study"
            jan15_2024 []).plan :=
  ⟨by norm_num, by decide, by decide, by decide,
   c1_amended sample_take "Mathematics" "general_study" 3 jan15_2024 []
     (by norm_num) (by decide) (by decide) (by decide)⟩

/-- The non-break total of an exam_prep day: quick review plus the three
study blocks, the break filtered out. -/
lemma exam_day_nonbreak (subject : String) (hi : ℚ) :
    non_break_duration_sum (generate_daily_schedule subject hi "exam_prep")
      = 1/4 + (practice_blocks subject hi "exam_prep" : ℚ) * min_block
        + (reading_blocks subject hi "exam_prep" : ℚ) * min_block
        + (revision_blocks subject hi "exam_prep" : ℚ) * min_block := by
  by_cases hb : (3:ℚ)/2 < hi <;>
    simp [generate_daily_schedule, non_break_duration_sum, is_break_block, hb] <;> ring

/-- An exam_prep day always carries at least 1.75 non-break hours. -/
lemma exam_day_nonbreak_pos (subject : String) (hi : ℚ) :
    (7:ℚ)/4 ≤ non_break_duration_sum (generate_daily_schedule subject hi "exam_prep") := by
  have hr : (1:ℚ) ≤ (reading_blocks subject hi "exam_prep" : ℚ) := by
    exact_mod_cast le_max_left 1 (pyround ((calculate_time_distribution subject hi "exam_prep").reading / min_block))
  have hp : (1:ℚ) ≤ (practice_blocks subject hi "exam_prep" : ℚ) := by
    exact_mod_cast le_max_left 1 (pyround ((calculate_time_distribution subject hi "exam_prep").practice / min_block))
  have hv : (1:ℚ) ≤ (revision_blocks subject hi "exam_prep" : ℚ) := by
    exact_mod_cast le_max_left 1 (pyround ((calculate_time_distribution subject hi "exam_prep").revision / min_block))
  rw [exam_day_nonbreak]
  simp only [min_block]
  linarith

/-- Claim C1, counterexample: for the exam_prep scenario (Mathematics,
3 daily hours) the summary total is 0 - no block is literally named
Reading, Practice or Revision there - while the week's non-break blocks
sum to far more, so the claimed equality fails. -/
theorem c1_counterexample :
    ¬ ((create_comprehensive_plan sample_take "Mathematics" 3 "exam_prep"
          jan15_2024 []).summary.total_study_hours
        = weekly_study_block_sum
            (create_comprehensive_plan sample_take "Mathematics" 3 "exam_prep"
              jan15_2024 []).plan) := by
  have hc3 : (3:ℚ)/2 < 3 := by norm_num
  have hc33 : (3:ℚ)/2 < 3 * (11/10) := by norm_num
  have hzero : (create_comprehensive_plan sample_take "Mathematics" 3 "exam_prep"
      jan15_2024 []).summary.total_study_hours = 0 := by
    simp [create_comprehensive_plan, create_weekly_plan, week_days_enum,
      generate_daily_schedule, adjusted_daily_hours, head_reading_duration,
      activity_duration_sum, hc3, hc33, round1_zero]
  have hpos : 0 < weekly_study_block_sum
      (create_comprehensive_plan sample_take "Mathematics" 3 "exam_prep"
        jan15_2024 []).plan := by
    show 0 < weekly_study_block_sum
      (create_weekly_plan sample_take "Mathematics" 3 "exam_prep" jan15_2024 [])
    simp only [weekly_study_block_sum, create_weekly_plan, week_days_enum,
      adjusted_daily_hours, List.map_cons, List.map_nil, List.sum_cons, List.sum_nil]
    simp only [show (("exam_prep" = "general_study") = False) from by simp,
      show (("exam_prep" = "exam_prep") = True) from by simp]
    simp
    linarith [exam_day_nonbreak_pos "Mathematics" (3:ℚ),
      exam_day_nonbreak_pos "Mathematics" ((3:ℚ) * (11/10))]
  intro heq
  rw [hzero] at heq
  exact absurd heq.symm (ne_of_gt hpos)

/-! ## Claim C2 -/

/-- Claim C2, counterexample: for Mathematics / 3h / exam_prep /
2024-01-15 the reported `summary.average_daily_hours` is 0 (no block is
literally named Reading, Practice or Revision under exam_prep), while
`total_weekly_hours / 7` rounded to 1 decimal is 3, so the claimed
equality fails. -/
theorem c2_counterexample :
    ¬ ((create_comprehensive_plan sample_take "Mathematics" 3 "exam_prep"
          jan15_2024 []).summary.average_daily_hours
        = round1 ((create_comprehensive_plan sample_take "Mathematics" 3 "exam_prep"
            jan15_2024 []).plan.total_weekly_hours / 7)) := by
  have hc3 : (3:ℚ)/2 < 3 := by norm_num
  have hc33 : (3:ℚ)/2 < 3 * (11/10) := by norm_num
  have havg : (create_comprehensive_plan sample_take "Mathematics" 3 "exam_prep"
      jan15_2024 []).summary.average_daily_hours = 0 := by
    simp [create_comprehensive_plan, create_weekly_plan, week_days_enum,
      generate_daily_schedule, adjusted_daily_hours, head_reading_duration,
      activity_duration_sum, hc3, hc33, round1_zero]
  have hrhs : round1 ((create_comprehensive_plan sample_take "Mathematics" 3 "exam_prep"
      jan15_2024 []).plan.total_weekly_hours / 7) = 3 := by
    show round1 ((3:ℚ) * 7 / 7) = 3
    norm_num [round1, pyround]
  intro heq
  rw [havg, hrhs] at heq
  norm_num at heq

/-- Claim C2, amended: the concrete plan for Mathematics / 3h /
exam_prep / 2024-01-15 does have the 7 weekday keys in order and Monday
dated 2024-01-15, but `summary.average_daily_hours` is the rounded
weekly sum of literally-named Reading/Practice/Revision blocks divided
by 7 - which is 0 under exam_prep - and not
`total_weekly_hours / 7 = 3`. -/
theorem c2_amended :
    (create_comprehensive_plan sample_take "Mathematics" 3 "exam_prep"
        jan15_2024 []).plan.daily_schedules.map Prod.fst = week_days ∧
    ((create_comprehensive_plan sample_take "Mathematics" 3 "exam_prep"
        jan15_2024 []).plan.daily_schedules.head?.map (fun p => (p.1, p.2.date)))
      = some ("Monday", "2024-01-15") ∧
    (create_comprehensive_plan sample_take "Mathematics" 3 "exam_prep"
        jan15_2024 []).summary.average_daily_hours = 0 ∧
    (create_comprehensive_plan sample_take "Mathematics" 3 "exam_prep"
        jan15_2024 []).plan.total_weekly_hours / 7 = 3 := by
  have hc3 : (3:ℚ)/2 < 3 := by norm_num
  have hc33 : (3:ℚ)/2 < 3 * (11/10) := by norm_num
  refine ⟨?_, ?_, ?_, ?_⟩
  · show (create_weekly_plan sample_take "Mathematics" 3 "exam_prep"
        jan15_2024 []).daily_schedules.map Prod.fst = week_days
    simp only [create_weekly_plan]
    rw [week_days_enum]
    simp [Function.comp, week_days]
  · show ((create_weekly_plan sample_take "Mathematics" 3 "exam_prep"
        jan15_2024 []).daily_schedules.head?.map (fun p => (p.1, p.2.date)))
      = some ("Monday", "2024-01-15")
    simp [create_weekly_plan, week_days_enum]
    decide
  · simp [create_comprehensive_plan, create_weekly_plan, week_days_enum,
      generate_daily_schedule, adjusted_daily_hours, head_reading_duration,
      activity_duration_sum, hc3, hc33, round1_zero]
  · show (3:ℚ) * 7 / 7 = 3
    norm_num
